import Mathlib

/-!
Shallow embedding of the monday-backend calculation service.

The model translates, function by function, the core of the repository:
the retrying Monday GraphQL client (MondayApiService), the calculation
service (CalculationService: calculateAndUpdateResult, updateFactor,
getFactor, and the history loggers), and the webhook handler
(MondayWebhookHandler: challenge echo, event filtering, input parsing).

Modelling conventions:
- JS numbers are modelled as rationals; the claims under study are
  structural (the code performs a single multiplication and passes the
  value through unchanged), so exact arithmetic is the faithful model.
- Fallible remote calls are modelled by explicit outcome parameters:
  a call either throws (carrying its error message) or returns a value.
- The local MongoDB store (factors, history) is modelled as explicit
  state.  The one store-write failure mode representable in this
  deterministic model is the schema-level validation of the Factor
  model (field factor has a min 0 constraint, so save and create
  reject a negative factor); that rejection is exactly the store
  failure exercised by the claims about updateFactor.
-/

/-! ## JS number parsing

Model of the JS builtin parseFloat restricted to what the repository
feeds it: optional leading whitespace, an optional sign, a longest
prefix of decimal digits with an optional fractional part.  A string
with no such prefix parses to NaN, modelled as none.  Exponent
notation is not modelled (never produced by the board payloads under
study).  The parse is split into a Nat-level pass and a conversion to
the rational value. -/

def digitVal (c : Char) : Nat := c.toNat - '0'.toNat

def parseDigits : List Char → Nat → Nat
  | [], acc => acc
  | c :: cs, acc => parseDigits cs (acc * 10 + digitVal c)

/-- Nat-level parse: returns (negative?, integer part, fraction digits
value, fraction digit count), or none when no digits are found. -/
def jsParseFloatAux (s : String) : Option (Bool × Nat × Nat × Nat) :=
  let cs := s.data.dropWhile (fun c => c == ' ' || c == '\t' || c == '\n' || c == '\r')
  let neg : Bool := match cs with
    | '-' :: _ => true
    | _ => false
  let cs2 : List Char := match cs with
    | '-' :: rest => rest
    | '+' :: rest => rest
    | _ => cs
  let ipart := cs2.takeWhile Char.isDigit
  let rest := cs2.dropWhile Char.isDigit
  let fpart := match rest with
    | '.' :: r => r.takeWhile Char.isDigit
    | _ => []
  if ipart.isEmpty && fpart.isEmpty then none
  else some (neg, parseDigits ipart 0, parseDigits fpart 0, fpart.length)

/-- Model of JS parseFloat: the exact rational value of the parsed
decimal prefix, or none for NaN. -/
def jsParseFloat (s : String) : Option ℚ :=
  (jsParseFloatAux s).map (fun r =>
    (if r.1 then (-1 : ℚ) else 1) * ((r.2.1 : ℚ) + (r.2.2.1 : ℚ) / (10 : ℚ) ^ r.2.2.2))

/-! ## JS values and truthiness -/

/-- A JS value as it appears in webhook payload fields. -/
inductive JsVal where
  | num (q : ℚ)
  | str (s : String)
  | null
  | undef
deriving DecidableEq

/-- JS truthiness on the values above: 0, the empty string, null and
undefined are falsy. -/
def JsVal.falsy : JsVal → Bool
  | .num q => q == 0
  | .str s => s == ""
  | .null => true
  | .undef => true

/-- JS truthiness of an optional string field (absent and the empty
string are falsy). -/
def strTruthy : Option String → Bool
  | none => false
  | some s => s != ""

/-- Model of the JS expression x || null on an optional number: a
present 0 is falsy, so it collapses to null. -/
def jsOrNull (o : Option ℚ) : Option ℚ :=
  match o with
  | some q => if q == 0 then none else some q
  | none => none

/-! ## Data model (src/types, src/models)

Factor rows and history entries as stored in MongoDB, with the local
store modelled as explicit state. -/

/-- TriggerType from CalculationService. -/
inductive Trigger where
  | api
  | webhook
  | system
deriving DecidableEq

/-- The action enum of the History schema. -/
inductive HAction where
  | factor_updated
  | recalculation
  | webhook_triggered
deriving DecidableEq

/-- The metadata bag attached to a history entry, one shape per call
site in CalculationService (logCalculation, logFactorUpdate, logError). -/
inductive HistoryMetadata where
  | calc (factor : ℚ) (calculation : String)
  | change (change : String)
  | errNote (error : String) (errorType : String)
deriving DecidableEq

/-- A History document as created by CalculationService. -/
structure HistoryEntry where
  itemId : String
  action : HAction
  oldValue : Option ℚ
  newValue : ℚ
  inputValue : Option ℚ
  resultValue : Option ℚ
  triggeredBy : Trigger
  metadata : HistoryMetadata
deriving DecidableEq

/-- The local document store: Factor rows (unique itemId key) and the
append-only History collection, newest entry last. -/
structure DbState where
  factors : List (String × ℚ)
  history : List HistoryEntry
deriving DecidableEq

/-- Factor.findOne on the itemId key. -/
def findFactor (db : DbState) (itemId : String) : Option ℚ :=
  (db.factors.find? (fun p => p.1 == itemId)).map (fun p => p.2)

/-- The store effect of existingFactor.save() / Factor.create: update
the existing row or insert a new one. -/
def upsertFactor (fs : List (String × ℚ)) (itemId : String) (f : ℚ) : List (String × ℚ) :=
  if fs.any (fun p => p.1 == itemId) then
    fs.map (fun p => if p.1 == itemId then (p.1, f) else p)
  else fs ++ [(itemId, f)]

/-! ## Retry policy (MondayApiService.executeWithRetry) -/

/-- RetryConfig from src/types. -/
structure RetryConfig where
  maxRetries : Nat
  baseDelay : Nat
  maxDelay : Nat
  backoffFactor : Nat
deriving DecidableEq

/-- defaultRetryConfig from MondayApiService. -/
def defaultRetryConfig : RetryConfig :=
  { maxRetries := 3, baseDelay := 1000, maxDelay := 10000, backoffFactor := 2 }

/-- The retry loop body.  The source iterates attempt = 0..maxRetries;
here remaining = maxRetries - attempt, so remaining = 0 is the source
condition attempt === maxRetries.  op gives the outcome of each
attempt; the function returns the final outcome, the number of
attempts made, and the list of delays slept between attempts. -/
def retryGo {E A : Type} (op : Nat → Except E A) (cfg : RetryConfig) :
    Nat → Nat → Except E A × Nat × List Nat
  | attempt, remaining =>
    match op attempt with
    | .ok a => (.ok a, attempt + 1, [])
    | .error e =>
      match remaining with
      | 0 => (.error e, attempt + 1, [])
      | r + 1 =>
        let d := min (cfg.baseDelay * cfg.backoffFactor ^ attempt) cfg.maxDelay
        let res := retryGo op cfg (attempt + 1) r
        (res.1, res.2.1, d :: res.2.2)

/-- executeWithRetry from MondayApiService: run the operation, retrying
up to cfg.maxRetries additional times after a failure, sleeping
min(baseDelay * backoffFactor ^ attempt, maxDelay) between attempts. -/
def executeWithRetry {E A : Type} (op : Nat → Except E A) (cfg : RetryConfig) :
    Except E A × Nat × List Nat :=
  retryGo op cfg 0 cfg.maxRetries

/-! ## Monday API client (MondayApiService.getItem) -/

/-- One GraphQL error object from the response errors array. -/
structure GraphQLError where
  message : String
deriving DecidableEq

/-- MondayApiResponse from src/types: the axios response.data payload
carrying data and an optional errors array. -/
structure MondayApiResponse (T : Type) where
  data : T
  errors : Option (List GraphQLError)
deriving DecidableEq

structure MondayColumnValue where
  id : String
  text : String
  value : String
  type : String
deriving DecidableEq

structure MondayItem where
  id : String
  name : String
  column_values : List MondayColumnValue
deriving DecidableEq

/-- The data payload of the GetItem query. -/
structure ItemsData where
  items : Option (List MondayItem)
deriving DecidableEq

/-- A transport-level failure of one POST attempt, as produced by
handleApiError (axios rejects on network failure and on non-2xx
status; both surface as a thrown ApiError inside the retry loop). -/
structure TransportError where
  statusCode : Nat
  message : String
deriving DecidableEq

/-- The typed failures getItem can surface to its caller. -/
inductive ApiFailure where
  | transport (statusCode : Nat) (message : String)
  | apiErrors (message : String)
  | notFound (itemId : String)
deriving DecidableEq

/-- getItem from MondayApiService: the POST is wrapped by
executeWithRetry; only after the retry loop returns a
transport-successful response are the GraphQL errors array and the
empty-items case checked, each by throwing without any further
attempt.  Returns the outcome together with the number of POST
attempts made. -/
def getItem (itemId : String)
    (post : Nat → Except TransportError (MondayApiResponse ItemsData))
    (cfg : RetryConfig) : Except ApiFailure MondayItem × Nat :=
  match executeWithRetry post cfg with
  | (.error e, n, _) => (.error (.transport e.statusCode e.message), n)
  | (.ok resp, n, _) =>
    match resp.errors with
    | some (e0 :: _) =>
      (.error (.apiErrors (if e0.message == "" then "Unknown error" else e0.message)), n)
    | _ =>
      match resp.data.items with
      | some (item :: _) => (.ok item, n)
      | _ => (.error (.notFound itemId), n)

deriving instance DecidableEq for Except

/-- Whether an Except outcome is a success. -/
def exceptOk {E A : Type} : Except E A → Bool
  | .ok _ => true
  | .error _ => false

/-! ## Calculation service (CalculationService) -/

/-- CalculationResult from CalculationService. -/
structure CalculationResult where
  inputValue : ℚ
  factor : ℚ
  resultValue : ℚ
  success : Bool
deriving DecidableEq

/-- FactorUpdateResult from CalculationService. -/
structure FactorUpdateResult where
  oldFactor : Option ℚ
  newFactor : ℚ
  success : Bool
deriving DecidableEq

/-- Outcomes of the two remote calls one calculateAndUpdateResult
invocation makes, after their internal retries: getColumnValue either
throws (with a message) or returns the column text (none for a null
result), and updateColumnValue either throws or returns its
acknowledgement flag. -/
structure CalcRemote where
  readInput : Except String (Option String)
  writeResult : Except String Bool

/-- calculateResult: the single multiplication, no rounding. -/
def calculateResult (inputValue factor : ℚ) : ℚ := inputValue * factor

/-- validateInputValue: parseFloat on the column text; none models the
thrown Invalid-input error on NaN. -/
def validateInputValue (inputValueText : String) : Option ℚ :=
  jsParseFloat inputValueText

/-- logCalculation: append the recalculation entry.  The calculation
note string renders the numbers with the model's rational printer. -/
def logCalculation (db : DbState) (itemId : String) (inputValue factor resultValue : ℚ)
    (triggeredBy : Trigger) : DbState :=
  { db with history := db.history ++
      [{ itemId := itemId, action := .recalculation, oldValue := none,
         newValue := resultValue, inputValue := some inputValue,
         resultValue := some resultValue, triggeredBy := triggeredBy,
         metadata := .calc factor
           (toString inputValue ++ " * " ++ toString factor ++ " = " ++ toString resultValue) }] }

/-- logError: append the failure entry (action recalculation,
newValue 0, the error message in metadata; errorType is Error for
every error thrown in this flow). -/
def logError (db : DbState) (itemId : String) (msg : String) (triggeredBy : Trigger) : DbState :=
  { db with history := db.history ++
      [{ itemId := itemId, action := .recalculation, oldValue := none,
         newValue := 0, inputValue := none, resultValue := none,
         triggeredBy := triggeredBy, metadata := .errNote msg "Error" }] }

/-- The failure result returned from the catch block of
calculateAndUpdateResult. -/
def failedCalculation : CalculationResult :=
  { inputValue := 0, factor := 0, resultValue := 0, success := false }

/-- calculateAndUpdateResult from CalculationService, step by step:
load the factor (absent throws), read the input column text (a thrown
read, a null text, or an empty text throws; note getColumnValue maps
an empty text to null itself), parse it (NaN throws), multiply, write
the result column (a thrown write or a false acknowledgement throws),
then log the calculation and return success.  Every throw lands in
the catch block, which logs the error entry and returns the zeroed
failure result. -/
def calculateAndUpdateResult (env : CalcRemote) (db : DbState) (itemId : String)
    (triggeredBy : Trigger) : CalculationResult × DbState :=
  match findFactor db itemId with
  | none => (failedCalculation, logError db itemId ("No factor found for item " ++ itemId) triggeredBy)
  | some factor =>
    match env.readInput with
    | .error msg => (failedCalculation, logError db itemId msg triggeredBy)
    | .ok none =>
      (failedCalculation, logError db itemId ("No input value found for item " ++ itemId) triggeredBy)
    | .ok (some text) =>
      if text == "" then
        (failedCalculation, logError db itemId ("No input value found for item " ++ itemId) triggeredBy)
      else
        match validateInputValue text with
        | none => (failedCalculation, logError db itemId ("Invalid input value: " ++ text) triggeredBy)
        | some inputValue =>
          let resultValue := calculateResult inputValue factor
          match env.writeResult with
          | .error msg => (failedCalculation, logError db itemId msg triggeredBy)
          | .ok false =>
            (failedCalculation,
             logError db itemId "Failed to update result column in Monday.com" triggeredBy)
          | .ok true =>
            ({ inputValue := inputValue, factor := factor, resultValue := resultValue,
               success := true },
             logCalculation db itemId inputValue factor resultValue triggeredBy)

/-- The factor_updated HistoryEntry built by logFactorUpdate.  The
change note follows the source's oldFactor ? a : b conditional; a
stored old factor of 0 already arrived here as none through the
|| null read, so the truthiness test coincides with the match. -/
def factorUpdatedEntry (itemId : String) (oldFactor : Option ℚ) (newFactor : ℚ)
    (triggeredBy : Trigger) : HistoryEntry :=
  { itemId := itemId, action := .factor_updated, oldValue := oldFactor,
    newValue := newFactor, inputValue := none, resultValue := none,
    triggeredBy := triggeredBy,
    metadata := .change (match oldFactor with
      | some o => toString o ++ " → " ++ toString newFactor
      | none => "New factor: " ++ toString newFactor) }

/-- logFactorUpdate from CalculationService: append the factor_updated
entry. -/
def logFactorUpdate (db : DbState) (itemId : String) (oldFactor : Option ℚ)
    (newFactor : ℚ) (triggeredBy : Trigger) : DbState :=
  { db with history := db.history ++ [factorUpdatedEntry itemId oldFactor newFactor triggeredBy] }

/-- updateFactor from CalculationService: read the existing row, then
save/create the new value.  The Factor schema's min 0 constraint makes
save and create reject a negative factor, landing in the catch block:
failure result, store untouched, no history entry.  On a successful
write, logFactorUpdate appends the factor_updated entry and the
success result is returned.  oldFactor is existing?.factor || null,
so a stored 0 reads back as null. -/
def updateFactor (db : DbState) (itemId : String) (newFactor : ℚ)
    (triggeredBy : Trigger) : FactorUpdateResult × DbState :=
  let oldFactor := jsOrNull (findFactor db itemId)
  if newFactor < 0 then
    ({ oldFactor := none, newFactor := 0, success := false }, db)
  else
    ({ oldFactor := oldFactor, newFactor := newFactor, success := true },
     logFactorUpdate
       { db with factors := upsertFactor db.factors itemId newFactor }
       itemId oldFactor newFactor triggeredBy)

/-- getFactor from CalculationService: factorDoc?.factor || null.  The
JS || maps a stored factor of 0 to null. -/
def getFactor (db : DbState) (itemId : String) : Option ℚ :=
  jsOrNull (findFactor db itemId)

/-! ## Webhook handler (MondayWebhookHandler) -/

/-- The value object of a webhook event (event.value), carrying the
inner value field read by parseInputValue. -/
structure WebhookColumnValue where
  value : JsVal
  unit : Option String
deriving DecidableEq

/-- The fields of the webhook event envelope the handler reads; the
remaining fields of the payload type are never inspected. -/
structure WebhookEvent where
  type : String
  columnId : String
  pulseId : Nat
  value : Option WebhookColumnValue
  previousValue : Option WebhookColumnValue
deriving DecidableEq

/-- The inbound POST body: an optional challenge token and an optional
event envelope. -/
structure WebhookBody where
  challenge : Option String
  event : Option WebhookEvent
deriving DecidableEq

/-- shouldProcessWebhook: accept only update_column_value events on the
configured input column. -/
def shouldProcessWebhook (payload : WebhookBody) (inputColumnId : String) : Bool :=
  match payload.event with
  | none => false
  | some e => e.type == "update_column_value" && e.columnId == inputColumnId

/-- parseInputValue: parseFloat(String(value?.value || '0')).  A falsy
inner value (missing, null, 0, the empty string) is replaced by the
string 0 before parsing.  String on a finite JS number round-trips
through parseFloat to the same number, so the non-falsy number case
returns the number; the null and undefined branches are unreachable
after the falsy replacement (String would render them as words that
parse to NaN). -/
def parseInputValue (v : Option WebhookColumnValue) : Option ℚ :=
  let inner : JsVal := match v with
    | none => JsVal.undef
    | some cv => cv.value
  let replaced : JsVal := if inner.falsy then JsVal.str "0" else inner
  match replaced with
  | .num q => some q
  | .str t => jsParseFloat t
  | .null => none
  | .undef => none

/-- The JSON body of the webhook response. -/
inductive RespBody where
  | successTrue
  | challenge (c : String)
  | internalError
deriving DecidableEq

/-- The observable outcome of one handleWebhook invocation: HTTP
status, response body, and the orchestrator call it made, if any
(itemId and trigger passed to calculateAndUpdateResult). -/
structure WebhookResult where
  status : Nat
  body : RespBody
  orchestratorCall : Option (String × Trigger)
deriving DecidableEq

/-- The event-delivery path of handleWebhook: filter with
shouldProcessWebhook, then handleColumnChange parses the value and
invokes the orchestrator only on a successful parse.
handleColumnChange swallows every error of its own, and the handler
then responds 200 success in all of these branches; the 500 branch of
the source fires only when the handler body itself throws, which this
total model cannot. -/
def processWebhookEvent (inputColumnId : String) (body : WebhookBody) : WebhookResult :=
  if shouldProcessWebhook body inputColumnId then
    match body.event with
    | some e =>
      match parseInputValue e.value with
      | none => { status := 200, body := .successTrue, orchestratorCall := none }
      | some _ =>
        { status := 200, body := .successTrue,
          orchestratorCall := some (toString e.pulseId, Trigger.webhook) }
    | none => { status := 200, body := .successTrue, orchestratorCall := none }
  else { status := 200, body := .successTrue, orchestratorCall := none }

/-- handleWebhook from MondayWebhookHandler: a truthy challenge field
(JS truthiness: a present, non-empty string) is echoed back with
status 200 before any event processing; otherwise the event-delivery
path runs. -/
def handleWebhook (inputColumnId : String) (body : WebhookBody) : WebhookResult :=
  match body.challenge with
  | some c =>
    if c == "" then processWebhookEvent inputColumnId body
    else { status := 200, body := .challenge c, orchestratorCall := none }
  | none => processWebhookEvent inputColumnId body

/-! ## Helper lemmas -/

theorem jsParseFloat_zero : jsParseFloat "0" = some 0 := by
  have h : jsParseFloatAux "0" = some (false, 0, 0, 0) := by decide
  simp [jsParseFloat, h]

theorem jsParseFloat_nil : jsParseFloat "" = none := by
  have h : jsParseFloatAux "" = none := by decide
  simp [jsParseFloat, h]

theorem retryGo_eq_ok {E A : Type} (op : Nat → Except E A) (cfg : RetryConfig)
    (attempt remaining : Nat) (a : A) (hA : op attempt = .ok a) :
    retryGo op cfg attempt remaining = (.ok a, attempt + 1, []) := by
  rw [retryGo, hA]

theorem retryGo_eq_err_zero {E A : Type} (op : Nat → Except E A) (cfg : RetryConfig)
    (attempt : Nat) (e : E) (hA : op attempt = .error e) :
    retryGo op cfg attempt 0 = (.error e, attempt + 1, []) := by
  rw [retryGo, hA]

theorem retryGo_eq_err_succ {E A : Type} (op : Nat → Except E A) (cfg : RetryConfig)
    (attempt r : Nat) (e : E) (hA : op attempt = .error e) :
    retryGo op cfg attempt (r + 1) =
      ((retryGo op cfg (attempt + 1) r).1, (retryGo op cfg (attempt + 1) r).2.1,
        min (cfg.baseDelay * cfg.backoffFactor ^ attempt) cfg.maxDelay ::
          (retryGo op cfg (attempt + 1) r).2.2) := by
  rw [retryGo, hA]

theorem retryGo_allFail {E A : Type} (op : Nat → Except E A) (cfg : RetryConfig)
    (h : ∀ j, exceptOk (op j) = false) :
    ∀ remaining attempt, (retryGo op cfg attempt remaining).2.1 = attempt + remaining + 1 ∧
      exceptOk (retryGo op cfg attempt remaining).1 = false := by
  intro remaining
  induction remaining with
  | zero =>
    intro attempt
    have hop := h attempt
    cases hA : op attempt with
    | ok a => rw [hA] at hop; simp [exceptOk] at hop
    | error e => simp [retryGo_eq_err_zero op cfg attempt e hA, exceptOk]
  | succ r ih =>
    intro attempt
    have hop := h attempt
    cases hA : op attempt with
    | ok a => rw [hA] at hop; simp [exceptOk] at hop
    | error e =>
      have hr := ih (attempt + 1)
      rw [retryGo_eq_err_succ op cfg attempt r e hA]
      refine ⟨?_, hr.2⟩
      simpa using by rw [hr.1]; omega

theorem retryGo_delay {E A : Type} (op : Nat → Except E A) (cfg : RetryConfig) :
    ∀ remaining attempt i, i < remaining →
      (∀ j, j ≤ attempt + i → exceptOk (op j) = false) →
      (retryGo op cfg attempt remaining).2.2.get? i =
        some (min (cfg.baseDelay * cfg.backoffFactor ^ (attempt + i)) cfg.maxDelay) := by
  intro remaining
  induction remaining with
  | zero => intro attempt i hi; omega
  | succ r ih =>
    intro attempt i hi h
    have hop := h attempt (by omega)
    cases hA : op attempt with
    | ok a => rw [hA] at hop; simp [exceptOk] at hop
    | error e =>
      rw [retryGo_eq_err_succ op cfg attempt r e hA]
      cases i with
      | zero => simp
      | succ k =>
        have hk := ih (attempt + 1) k (by omega) (fun j hj => h j (by omega))
        have harith : attempt + 1 + k = attempt + (k + 1) := by omega
        rw [harith] at hk
        simpa using hk

/-! ## Claims -/

/-- Claim C2: for every operation wrapped by the retry policy, if
attempt i (0-indexed) fails with i < maxRetries, the delay before
attempt i+1 is min(baseDelay * backoffFactor^i, maxDelay); if every
attempt fails, exactly maxRetries + 1 attempts are made and the
failure is surfaced with no further attempts; the defaults are
maxRetries 3, base 1000ms, factor 2, cap 10000ms. -/
theorem c2_retry_policy {E A : Type} (op : Nat → Except E A) (cfg : RetryConfig) :
    (∀ i, i < cfg.maxRetries → (∀ j, j ≤ i → exceptOk (op j) = false) →
      (executeWithRetry op cfg).2.2.get? i =
        some (min (cfg.baseDelay * cfg.backoffFactor ^ i) cfg.maxDelay)) ∧
    ((∀ j, exceptOk (op j) = false) →
      (executeWithRetry op cfg).2.1 = cfg.maxRetries + 1 ∧
      exceptOk (executeWithRetry op cfg).1 = false) ∧
    defaultRetryConfig =
      { maxRetries := 3, baseDelay := 1000, maxDelay := 10000, backoffFactor := 2 } := by
  refine ⟨?_, ?_, rfl⟩
  · intro i hi h
    have hd := retryGo_delay op cfg cfg.maxRetries 0 i hi (by simpa using h)
    simpa [executeWithRetry] using hd
  · intro h
    have ha := retryGo_allFail op cfg h cfg.maxRetries 0
    exact ⟨by simpa [executeWithRetry] using ha.1, by simpa [executeWithRetry] using ha.2⟩

/-- Witness for C2: an always-failing operation under the default
configuration makes exactly 4 attempts, and the delay before the
third attempt is min(1000 * 2^1, 10000) = 2000ms. -/
theorem c2_witness :
    (executeWithRetry (fun _ => (Except.error "down" : Except String Unit))
        defaultRetryConfig).2.1 = 4 ∧
    (executeWithRetry (fun _ => (Except.error "down" : Except String Unit))
        defaultRetryConfig).2.2.get? 1 = some 2000 := by
  constructor
  · exact ((c2_retry_policy (fun _ => (Except.error "down" : Except String Unit))
      defaultRetryConfig).2.1 (fun j => rfl)).1
  · exact ((c2_retry_policy (fun _ => (Except.error "down" : Except String Unit))
      defaultRetryConfig).1 1 (by decide) (fun j hj => rfl)).trans (by decide)

/-- Counterexample for C4: a first attempt that transport-succeeds
with HTTP 200 but carries a non-empty GraphQL errors array makes
getItem fail after exactly one POST attempt, although the default
policy would allow 3 retries were the failure routed through the
retry loop. -/
theorem c4_counterexample :
    getItem "1"
        (fun _ => Except.ok { data := { items := some [] }, errors := some [{ message := "boom" }] })
        defaultRetryConfig =
      (Except.error (ApiFailure.apiErrors "boom"), 1) ∧
    (1 : Nat) ≠ defaultRetryConfig.maxRetries + 1 := by
  exact ⟨rfl, by decide⟩

/-- Claim C4 (amended): a response whose payload carries a non-empty
GraphQL errors array, delivered on a transport-successful first
attempt, is surfaced as a failure immediately, after exactly one
attempt and with no retries; only transport-level failures (including
non-2xx responses, which the HTTP client raises as errors) pass
through the retry loop. -/
theorem c4_no_retry_on_graphql_errors (itemId : String)
    (post : Nat → Except TransportError (MondayApiResponse ItemsData)) (cfg : RetryConfig)
    (resp : MondayApiResponse ItemsData) (e0 : GraphQLError) (es : List GraphQLError)
    (hpost : post 0 = Except.ok resp) (herr : resp.errors = some (e0 :: es)) :
    getItem itemId post cfg =
      (Except.error (ApiFailure.apiErrors
        (if e0.message == "" then "Unknown error" else e0.message)), 1) := by
  have hrun : executeWithRetry post cfg = (Except.ok resp, 1, []) := by
    unfold executeWithRetry
    exact retryGo_eq_ok post cfg 0 cfg.maxRetries resp hpost
  simp [getItem, hrun, herr]

/-- Witness for C4 (amended): a concrete errors-array response is
surfaced after exactly one attempt. -/
theorem c4_witness :
    getItem "9"
        (fun _ => Except.ok { data := { items := some [] },
                              errors := some [{ message := "bad query" }] })
        defaultRetryConfig =
      (Except.error (ApiFailure.apiErrors "bad query"), 1) := by
  have h := c4_no_retry_on_graphql_errors "9"
    (fun _ => Except.ok { data := { items := some [] },
                          errors := some [{ message := "bad query" }] })
    defaultRetryConfig
    { data := { items := some [] }, errors := some [{ message := "bad query" }] }
    { message := "bad query" } [] rfl rfl
  exact h

theorem processWebhookEvent_status (inputColumnId : String) (body : WebhookBody) :
    (processWebhookEvent inputColumnId body).status = 200 := by
  unfold processWebhookEvent
  repeat' split
  all_goals rfl

theorem handleWebhook_status (inputColumnId : String) (body : WebhookBody) :
    (handleWebhook inputColumnId body).status = 200 := by
  unfold handleWebhook
  repeat' split
  all_goals first
    | rfl
    | exact processWebhookEvent_status inputColumnId body

/-- Counterexample for C5: a structurally empty body (no challenge, no
event envelope) is acknowledged with status 200 and success:true, not
with a 500 server error. -/
theorem c5_counterexample :
    handleWebhook "col_input" { challenge := none, event := none } =
      { status := 200, body := RespBody.successTrue, orchestratorCall := none } ∧
    (200 : Nat) ≠ 500 := by
  exact ⟨rfl, by decide⟩

/-- Claim C5 (amended): a body carrying neither a challenge token nor
an event envelope falls into the ignore branch: it is acknowledged
with status 200 and success:true, never invokes the orchestrator, and
a 500 is produced only when the handler itself throws (a non-object
body, outside this total model). -/
theorem c5_invalid_payload_acknowledged (inputColumnId : String) (body : WebhookBody)
    (hc : body.challenge = none) (he : body.event = none) :
    handleWebhook inputColumnId body =
      { status := 200, body := RespBody.successTrue, orchestratorCall := none } := by
  simp [handleWebhook, hc, processWebhookEvent, shouldProcessWebhook, he]

/-- Witness for C5 (amended): the empty body at a concrete column id. -/
theorem c5_witness :
    handleWebhook "numbers" { challenge := none, event := none } =
      { status := 200, body := RespBody.successTrue, orchestratorCall := none } :=
  c5_invalid_payload_acknowledged "numbers" { challenge := none, event := none } rfl rfl

/-- Claim C6: an event whose type is not update_column_value or whose
columnId is not the configured input column, and an accepted event
whose value is unparsable as a number, never invoke the calculation
orchestrator, and the sender still receives a success (200) response. -/
theorem c6_filtered_events_ignored (inputColumnId : String) (body : WebhookBody)
    (e : WebhookEvent) (he : body.event = some e)
    (h : ¬(e.type = "update_column_value" ∧ e.columnId = inputColumnId) ∨
      parseInputValue e.value = none) :
    (handleWebhook inputColumnId body).orchestratorCall = none ∧
    (handleWebhook inputColumnId body).status = 200 := by
  refine ⟨?_, handleWebhook_status inputColumnId body⟩
  have hproc : (processWebhookEvent inputColumnId body).orchestratorCall = none := by
    rcases h with h | h
    · have hs : shouldProcessWebhook body inputColumnId = false := by
        simp [shouldProcessWebhook, he]
        tauto
      simp [processWebhookEvent, hs]
    · by_cases hs : shouldProcessWebhook body inputColumnId
      · simp [processWebhookEvent, hs, he, h]
      · simp [processWebhookEvent, hs]
  unfold handleWebhook
  cases hc : body.challenge with
  | none => exact hproc
  | some c =>
    by_cases hc0 : c = ""
    · simp [hc0, hproc]
    · simp [hc0]

/-- Witness for C6: a create_pulse event on the configured column is
acknowledged without any orchestrator call. -/
theorem c6_witness :
    (handleWebhook "col_input"
      { challenge := none,
        event := some { type := "create_pulse", columnId := "col_input", pulseId := 1,
                        value := none, previousValue := none } }).orchestratorCall = none ∧
    (handleWebhook "col_input"
      { challenge := none,
        event := some { type := "create_pulse", columnId := "col_input", pulseId := 1,
                        value := none, previousValue := none } }).status = 200 :=
  c6_filtered_events_ignored "col_input" _ _ rfl (Or.inl (by decide))

/-- Counterexample for C7: the payload whose challenge field is the
empty string contains a challenge field, yet the handler does not echo
it; JS truthiness sends it down the event path and it is answered with
success:true instead of the challenge echo. -/
theorem c7_counterexample :
    (handleWebhook "col_input" { challenge := some "", event := none }).body =
      RespBody.successTrue ∧
    RespBody.successTrue ≠ RespBody.challenge "" := by
  exact ⟨rfl, by decide⟩

/-- Claim C7 (amended): every payload whose challenge field is present
and non-empty (JS-truthy) is answered with exactly that challenge
value and status 200, before any event filtering or orchestration,
regardless of the rest of the payload. -/
theorem c7_challenge_echo (inputColumnId : String) (body : WebhookBody) (c : String)
    (hc : body.challenge = some c) (hne : c ≠ "") :
    handleWebhook inputColumnId body =
      { status := 200, body := RespBody.challenge c, orchestratorCall := none } := by
  simp [handleWebhook, hc, hne]

/-- Witness for C7 (amended): a challenge alongside a fully valid
event is echoed and the orchestrator is not invoked. -/
theorem c7_witness :
    handleWebhook "col_input"
      { challenge := some "token",
        event := some { type := "update_column_value", columnId := "col_input", pulseId := 7,
                        value := some { value := JsVal.num 5, unit := none },
                        previousValue := none } } =
      { status := 200, body := RespBody.challenge "token", orchestratorCall := none } :=
  c7_challenge_echo "col_input" _ "token" rfl (by decide)

/-- Claim C10: an event that passes the type and column filter but
whose value.value is missing, null, 0 or the empty string is parsed
through the fallback string 0 to the number 0, and the orchestrator is
still invoked for the event's item. -/
theorem c10_falsy_value_defaults_to_zero (inputColumnId : String) (body : WebhookBody)
    (e : WebhookEvent)
    (hch : strTruthy body.challenge = false)
    (he : body.event = some e)
    (ht : e.type = "update_column_value")
    (hcol : e.columnId = inputColumnId)
    (hv : e.value = none ∨ ∃ cv, e.value = some cv ∧ cv.value.falsy = true) :
    parseInputValue e.value = some 0 ∧
    (handleWebhook inputColumnId body).orchestratorCall =
      some (toString e.pulseId, Trigger.webhook) := by
  have hparse : parseInputValue e.value = some 0 := by
    rcases hv with h | ⟨cv, hcv, hf⟩
    · simp [parseInputValue, h, JsVal.falsy, jsParseFloat_zero]
    · simp [parseInputValue, hcv, hf, jsParseFloat_zero]
  have hs : shouldProcessWebhook body inputColumnId = true := by
    simp [shouldProcessWebhook, he, ht, hcol]
  have hproc : (processWebhookEvent inputColumnId body).orchestratorCall =
      some (toString e.pulseId, Trigger.webhook) := by
    simp [processWebhookEvent, hs, he, hparse]
  refine ⟨hparse, ?_⟩
  unfold handleWebhook
  cases hc : body.challenge with
  | none => exact hproc
  | some c =>
    have hc0 : c = "" := by
      rw [hc] at hch
      simpa [strTruthy] using hch
    simp [hc0, hproc]

/-- Witness for C10: a null value on an accepted event parses to 0 and
triggers the orchestrator for item 42. -/
theorem c10_witness :
    parseInputValue (some { value := JsVal.null, unit := none }) = some 0 ∧
    (handleWebhook "col_input"
      { challenge := none,
        event := some { type := "update_column_value", columnId := "col_input", pulseId := 42,
                        value := some { value := JsVal.null, unit := none },
                        previousValue := none } }).orchestratorCall =
      some ("42", Trigger.webhook) := by
  have h := c10_falsy_value_defaults_to_zero "col_input"
    { challenge := none,
      event := some { type := "update_column_value", columnId := "col_input", pulseId := 42,
                      value := some { value := JsVal.null, unit := none },
                      previousValue := none } }
    { type := "update_column_value", columnId := "col_input", pulseId := 42,
      value := some { value := JsVal.null, unit := none }, previousValue := none }
    rfl rfl rfl rfl (Or.inr ⟨{ value := JsVal.null, unit := none }, rfl, rfl⟩)
  exact h

/-- Claim C1: for every itemId with a stored factor and a numeric
input column text, a recalculation that returns success:true returns
resultValue equal to the exact product inputValue * factor (no
rounding), and appends exactly one recalculation HistoryEntry whose
newValue, inputValue, resultValue and metadata factor match the
returned values. -/
theorem c1_successful_recalculation (env : CalcRemote) (db : DbState) (itemId : String)
    (tb : Trigger) (f v : ℚ) (text : String)
    (hf : findFactor db itemId = some f)
    (hr : env.readInput = Except.ok (some text))
    (hv : validateInputValue text = some v)
    (hs : (calculateAndUpdateResult env db itemId tb).1.success = true) :
    (calculateAndUpdateResult env db itemId tb).1.resultValue = v * f ∧
    (calculateAndUpdateResult env db itemId tb).1.inputValue = v ∧
    (calculateAndUpdateResult env db itemId tb).1.factor = f ∧
    ∃ note, (calculateAndUpdateResult env db itemId tb).2.history = db.history ++
      [{ itemId := itemId, action := HAction.recalculation, oldValue := none,
         newValue := v * f, inputValue := some v, resultValue := some (v * f),
         triggeredBy := tb, metadata := HistoryMetadata.calc f note }] := by
  have htext : ¬ text = "" := by
    intro h
    rw [h] at hv
    rw [show validateInputValue "" = none from jsParseFloat_nil] at hv
    cases hv
  cases hw : env.writeResult with
  | error m =>
    exfalso
    simp [calculateAndUpdateResult, hf, hr, htext, hv, hw, failedCalculation] at hs
  | ok b =>
    cases b with
    | false =>
      exfalso
      simp [calculateAndUpdateResult, hf, hr, htext, hv, hw, failedCalculation] at hs
    | true =>
      refine ⟨?_, ?_, ?_, ?_⟩
      · simp [calculateAndUpdateResult, hf, hr, htext, hv, hw, calculateResult]
      · simp [calculateAndUpdateResult, hf, hr, htext, hv, hw]
      · simp [calculateAndUpdateResult, hf, hr, htext, hv, hw]
      · refine ⟨toString v ++ " * " ++ toString f ++ " = " ++ toString (v * f), ?_⟩
        simp [calculateAndUpdateResult, hf, hr, htext, hv, hw, logCalculation, calculateResult]

/-- Witness for C1: factor 3 stored for item 123, input text 10, a
successful remote write: the result is 10 * 3 and the matching entry
is appended to the empty history. -/
theorem c1_witness :
    (calculateAndUpdateResult { readInput := Except.ok (some "10"), writeResult := Except.ok true }
        { factors := [("123", 3)], history := [] } "123" Trigger.api).1.resultValue = 10 * 3 ∧
    (calculateAndUpdateResult { readInput := Except.ok (some "10"), writeResult := Except.ok true }
        { factors := [("123", 3)], history := [] } "123" Trigger.api).1.inputValue = 10 ∧
    (calculateAndUpdateResult { readInput := Except.ok (some "10"), writeResult := Except.ok true }
        { factors := [("123", 3)], history := [] } "123" Trigger.api).1.factor = 3 ∧
    ∃ note, (calculateAndUpdateResult
        { readInput := Except.ok (some "10"), writeResult := Except.ok true }
        { factors := [("123", 3)], history := [] } "123" Trigger.api).2.history =
      ([] : List HistoryEntry) ++
      [{ itemId := "123", action := HAction.recalculation, oldValue := none,
         newValue := 10 * 3, inputValue := some 10, resultValue := some (10 * 3),
         triggeredBy := Trigger.api, metadata := HistoryMetadata.calc 3 note }] := by
  have hparse : validateInputValue "10" = some 10 := by
    have h : jsParseFloatAux "10" = some (false, 10, 0, 0) := by decide
    simp [validateInputValue, jsParseFloat, h]
  exact c1_successful_recalculation
    { readInput := Except.ok (some "10"), writeResult := Except.ok true }
    { factors := [("123", 3)], history := [] } "123" Trigger.api 3 10 "10"
    (by simp [findFactor]) rfl hparse rfl

/-- Counterexample for C3: a store write that fails (the Factor
schema's min 0 constraint rejects the value -1, so save/create
throws) returns success:false and appends no factor_updated
HistoryEntry at all — the append is not unconditional. -/
theorem c3_counterexample :
    (updateFactor { factors := [], history := [] } "7" (-1) Trigger.api).1.success = false ∧
    (updateFactor { factors := [], history := [] } "7" (-1) Trigger.api).2.history = [] := by
  constructor <;> norm_num [updateFactor]

/-- Claim C3 (amended): updateFactor appends the factor_updated
HistoryEntry exactly when the store write succeeds: on a successful
write the entry for the new value is appended and success:true is
returned; when the store write fails the function returns
success:false from its catch block and no history entry is appended. -/
theorem c3_history_iff_store_success (db : DbState) (itemId : String) (f : ℚ) (tb : Trigger) :
    (0 ≤ f → (updateFactor db itemId f tb).1.success = true ∧
      ∃ e, (updateFactor db itemId f tb).2.history = db.history ++ [e] ∧
        e.action = HAction.factor_updated ∧ e.itemId = itemId ∧ e.newValue = f) ∧
    (f < 0 → (updateFactor db itemId f tb).1.success = false ∧
      (updateFactor db itemId f tb).2.history = db.history) := by
  constructor
  · intro h
    have hn : ¬ f < 0 := not_lt.mpr h
    constructor
    · simp [updateFactor, hn]
    · refine ⟨factorUpdatedEntry itemId (jsOrNull (findFactor db itemId)) f tb,
        ?_, rfl, rfl, rfl⟩
      simp [updateFactor, hn, logFactorUpdate]
  · intro h
    exact ⟨by simp [updateFactor, h], by simp [updateFactor, h]⟩

/-- Witness for C3 (amended): a successful write appends the entry; a
rejected negative write leaves the history untouched. -/
theorem c3_witness :
    ((updateFactor { factors := [], history := [] } "3" 2 Trigger.api).1.success = true ∧
      ∃ e, (updateFactor { factors := [], history := [] } "3" 2 Trigger.api).2.history =
          ([] : List HistoryEntry) ++ [e] ∧
        e.action = HAction.factor_updated ∧ e.itemId = "3" ∧ e.newValue = 2) ∧
    ((updateFactor { factors := [], history := [] } "4" (-2) Trigger.api).1.success = false ∧
      (updateFactor { factors := [], history := [] } "4" (-2) Trigger.api).2.history = []) :=
  ⟨(c3_history_iff_store_success { factors := [], history := [] } "3" 2 Trigger.api).1
      (by norm_num),
   (c3_history_iff_store_success { factors := [], history := [] } "4" (-2) Trigger.api).2
      (by norm_num)⟩

/-- Claim C8: for every itemId and every newFactor < 0, updateFactor
rejects the request (the schema validation fails before any write):
it returns success:false and the store — factor rows and history —
is unchanged. -/
theorem c8_reject_negative_factor (db : DbState) (itemId : String) (f : ℚ) (tb : Trigger)
    (h : f < 0) :
    updateFactor db itemId f tb =
      ({ oldFactor := none, newFactor := 0, success := false }, db) := by
  simp [updateFactor, h]

/-- Witness for C8: setting -1 on an item with an existing factor 4
fails and leaves the store exactly as it was. -/
theorem c8_witness :
    updateFactor { factors := [("9", 4)], history := [] } "9" (-1) Trigger.api =
      ({ oldFactor := none, newFactor := 0, success := false },
       { factors := [("9", 4)], history := [] }) :=
  c8_reject_negative_factor { factors := [("9", 4)], history := [] } "9" (-1) Trigger.api
    (by norm_num)

/-- Claim C9: the code diverges from the claim at a stored factor of
0: the Factor row for item 42 holds 0 (the schema and the POST route
accept 0), yet getFactor reports absence, because
factorDoc?.factor || null collapses the falsy 0 to null. -/
theorem c9_zero_factor_read_as_absent :
    findFactor { factors := [("42", 0)], history := [] } "42" = some 0 ∧
    getFactor { factors := [("42", 0)], history := [] } "42" = none := by
  constructor
  · simp [findFactor]
  · simp [getFactor, findFactor, jsOrNull]
